import Mathlib

/-!
Shallow embedding of the structured-log emission fabric of
`warehouse-service` (Go): the slog handlers in
`observability/syslog_handler.go`, the OTLP handler, the Loki handler,
the file logger in `observability/otel.go`, and the `setupLogging`
orchestrator in `main.go`.  Machine integers are modelled as `Int`
(Go `slog.Level` is an `int`; timestamps are `int64` nanosecond counts);
fallible calls return `Option`/product-with-error; side effects are
explicit effect traces.
-/

namespace WarehouseService

/-! ### Go `slog` levels

`slog.Level` is an integer: Debug = -4, Info = 0, Warn = 4, Error = 8. -/

abbrev Level := Int

def LevelDebug : Level := -4
def LevelInfo : Level := 0
def LevelWarn : Level := 4
def LevelError : Level := 8

/-- Go `fmt.Sprintf("%s%+d", base, v)` as used by `slog.Level.String`:
the offset is printed with an explicit sign when nonzero. -/
def plusFmt (base : String) (v : Int) : String :=
  if v = 0 then base
  else if v > 0 then base ++ "+" ++ toString v
  else base ++ toString v

/-- Go `slog.Level.String()`. -/
def levelString (l : Level) : String :=
  if l < LevelInfo then plusFmt "DEBUG" (l - LevelDebug)
  else if l < LevelWarn then plusFmt "INFO" (l - LevelInfo)
  else if l < LevelError then plusFmt "WARN" (l - LevelWarn)
  else plusFmt "ERROR" (l - LevelError)

/-! ### Attribute values

`slog.Value` restricted to the kinds the service actually logs
(string / int64 / bool); `kind` distinguishes `slog.KindString`. -/

inductive SlogValue where
  | str (s : String)
  | int (n : Int)
  | bool (b : Bool)
  deriving DecidableEq, Repr

/-- `attr.Value.Kind() == slog.KindString`. -/
def SlogValue.isString : SlogValue → Bool
  | .str _ => true
  | _ => false

/-- `attr.Value.String()` for a string-kinded value. -/
def SlogValue.stringVal : SlogValue → String
  | .str s => s
  | .int n => toString n
  | .bool b => if b then "true" else "false"

/-- Go `fmt.Sprintf("%v", attr.Value.Any())`. -/
def SlogValue.goString : SlogValue → String
  | .str s => s
  | .int n => toString n
  | .bool b => if b then "true" else "false"

/-! ### Time and records

Calendar formatting (`time.Time.Format`) is not re-implemented; a time
value carries its nanosecond count together with the two renderings the
handlers use. -/

structure GoTime where
  /-- `t.UnixNano()`. -/
  unixNano : Int
  /-- `t.Format(time.RFC3339Nano)` (Loki line body). -/
  rfc3339Nano : String
  /-- `t.Format("2006-01-02T15:04:05.000Z07:00")` (syslog line body). -/
  isoMillis : String
  deriving DecidableEq, Repr

/-- `slog.Record`: time, level, message and the record's own attributes
in order. -/
structure Record where
  time : GoTime
  level : Level
  message : String
  attrs : List (String × SlogValue)
  deriving DecidableEq, Repr

/-! ### Go maps and JSON

Go string-keyed maps are modelled as association lists with
update-or-append assignment; `encoding/json` marshals a map with its
keys sorted. -/

def mapSet {α : Type} (m : List (String × α)) (k : String) (v : α) :
    List (String × α) :=
  match m with
  | [] => [(k, v)]
  | (k', v') :: rest =>
      if k' = k then (k, v) :: rest else (k', v') :: mapSet rest k v

def mapLookup {α : Type} (m : List (String × α)) (k : String) : Option α :=
  match m with
  | [] => none
  | (k', v) :: rest => if k' = k then some v else mapLookup rest k

/-- Go's zero-value read `m[k]` on a `map[string]string`. -/
def mapGet (m : List (String × String)) (k : String) : String :=
  (mapLookup m k).getD ""

/-- Byte-wise (code-point-wise) string order — the order in which
`encoding/json` emits the keys of a Go map. -/
def charsLe : List Char → List Char → Bool
  | [], _ => true
  | _ :: _, [] => false
  | a :: as, b :: bs =>
      if a.toNat < b.toNat then true
      else if b.toNat < a.toNat then false
      else charsLe as bs

def strLe (a b : String) : Bool := charsLe a.data b.data

/-- Insert one keyed entry into a key-sorted list (used to model the
sorted-key order in which `encoding/json` emits a Go map). -/
def insertByKey {α : Type} (p : String × α) :
    List (String × α) → List (String × α)
  | [] => [p]
  | q :: rest => if strLe p.1 q.1 then p :: q :: rest else q :: insertByKey p rest

def sortByKey {α : Type} (m : List (String × α)) : List (String × α) :=
  m.foldr insertByKey []

/-- JSON values, used to model marshalled request bodies structurally. -/
inductive Json where
  | str : String → Json
  | num : Int → Json
  | bool : Bool → Json
  | arr : List Json → Json
  | obj : List (String × Json) → Json
  deriving Repr

def SlogValue.toJson : SlogValue → Json
  | .str s => .str s
  | .int n => .num n
  | .bool b => .bool b

/-! ### Flat JSON text rendering

The log line bodies (`string(logJSON)`) are flat objects over scalar
values, rendered with `encoding/json`'s default string escaping
(quote, backslash, `\n`, `\r`, `\t`, `<`, `>`, `&`, other controls as
`\u00XX`). -/

def hexDigit (n : Nat) : Char :=
  if n < 10 then Char.ofNat (48 + n) else Char.ofNat (87 + n)

def escapeChar (c : Char) : String :=
  if c = '"' then "\\\""
  else if c = '\\' then "\\\\"
  else if c = '\n' then "\\n"
  else if c = '\r' then "\\r"
  else if c = '\t' then "\\t"
  else if c = '<' then "\\u003c"
  else if c = '>' then "\\u003e"
  else if c = '&' then "\\u0026"
  else if c.toNat < 32 then
    "\\u00" ++ String.mk [hexDigit (c.toNat / 16), hexDigit (c.toNat % 16)]
  else String.singleton c

def escapeString (s : String) : String :=
  String.join (s.data.map escapeChar)

def quoteString (s : String) : String :=
  "\"" ++ escapeString s ++ "\""

def renderScalar : Json → String
  | .str s => quoteString s
  | .num n => toString n
  | .bool b => if b then "true" else "false"
  | .arr _ => ""
  | .obj _ => ""

def renderFields : List (String × Json) → String
  | [] => ""
  | [(k, v)] => quoteString k ++ ":" ++ renderScalar v
  | (k, v) :: rest => quoteString k ++ ":" ++ renderScalar v ++ "," ++ renderFields rest

/-- `string(json.Marshal(m))` for a flat `map[string]interface{}` whose
values are scalars: keys sorted, then rendered. -/
def renderFlatObj (m : List (String × Json)) : String :=
  "\x7b" ++ renderFields (sortByKey m) ++ "\x7d"

/-! ### Effects and environments

Each handler's `Handle` is embedded as a function producing the ordered
trace of the side-effecting calls it makes, plus its returned `error`
(`Option String`, `none` = `nil`).  The environment supplies the
outcome of each external call. -/

structure HttpRequest where
  url : String
  /-- Headers set on the request (`http.NewRequest` starts with none;
  each `req.Header.Set` appends/overwrites). -/
  headers : List (String × String)
  /-- The marshalled JSON body, modelled structurally. -/
  body : Json

inductive SyslogSeverity where
  | debug | info | warning | err
  deriving DecidableEq, Repr

inductive Effect where
  /-- `h.fallback.Handle(ctx, record)`: the embedded baseline
  stdout-JSON handler receives the record (with the baseline handler's
  accumulated `WithAttrs` attributes). -/
  | baselineHandle (attrs : List (String × SlogValue)) (r : Record)
  /-- `h.writer.<Debug|Info|Warning|Err>(line)`: a syslog transport send. -/
  | syslogSend (sev : SyslogSeverity) (line : String)
  /-- `h.client.Do(req)`: one HTTP send attempt. -/
  | post (req : HttpRequest)

def Effect.isRemote : Effect → Bool
  | .baselineHandle _ _ => false
  | .syslogSend _ _ => true
  | .post _ => true

/-- Outcomes of the external calls one `Handle`/send makes. -/
structure EmitEnv where
  /-- Error returned by `h.fallback.Handle` (`none` = success). -/
  fallbackErr : Option String
  /-- Error returned by the syslog writer's send method. -/
  syslogSendErr : Option String
  /-- `http.NewRequest` fails. -/
  newRequestFails : Bool
  /-- `h.client.Do` fails (e.g. the remote target is unreachable). -/
  clientDoFails : Bool

/-! ### Shared log-line construction

Both the syslog and Loki handlers build
`map[string]interface{}{"timestamp": ..., "level": ..., "msg": ...}`
then add every record attribute, and marshal it. -/

def logEntryMap (timestamp : String) (r : Record) : List (String × Json) :=
  r.attrs.foldl (fun m kv => mapSet m kv.1 kv.2.toJson)
    [("timestamp", Json.str timestamp),
     ("level", Json.str (levelString r.level)),
     ("msg", Json.str r.message)]

/-! ### Syslog handler (`observability/syslog_handler.go`) -/

structure SyslogHandler where
  level : Level
  /-- Accumulated `WithAttrs` attributes of the embedded
  `slog.NewJSONHandler(os.Stdout, ...)` fallback. -/
  fallbackAttrs : List (String × SlogValue)

/-- `SyslogHandler.Enabled`. -/
def SyslogHandler.Enabled (h : SyslogHandler) (level : Level) : Bool :=
  h.level ≤ level

/-- The `switch record.Level` in `SyslogHandler.Handle` choosing the
writer method. -/
def syslogSeverityFor (l : Level) : SyslogSeverity :=
  if l = LevelDebug then .debug
  else if l = LevelInfo then .info
  else if l = LevelWarn then .warning
  else if l = LevelError then .err
  else .info

/-- `SyslogHandler.Handle`: fallback first; on fallback error return it;
otherwise marshal the structured line and send it via the syslog writer
at the mapped severity, returning the writer's error. -/
def SyslogHandler.Handle (h : SyslogHandler) (env : EmitEnv) (r : Record) :
    List Effect × Option String :=
  match env.fallbackErr with
  | some e => ([.baselineHandle h.fallbackAttrs r], some e)
  | none =>
      let line := renderFlatObj (logEntryMap r.time.isoMillis r)
      ([.baselineHandle h.fallbackAttrs r,
        .syslogSend (syslogSeverityFor r.level) line],
       env.syslogSendErr)

/-- `SyslogHandler.WithAttrs`: only the fallback accumulates them. -/
def SyslogHandler.WithAttrs (h : SyslogHandler)
    (attrs : List (String × SlogValue)) : SyslogHandler :=
  { h with fallbackAttrs := h.fallbackAttrs ++ attrs }

/-! ### Loki handler (metrics-push) -/

structure LokiConfig where
  URL : String
  Labels : List (String × String)
  Level : Level

structure LokiHandler where
  lokiURL : String
  labels : List (String × String)
  level : Level
  fallbackAttrs : List (String × SlogValue)

/-- `NewLokiHandler`: default the `service` and `job` labels, append
the push path to the endpoint. -/
def NewLokiHandler (config : LokiConfig) : LokiHandler :=
  let labels := config.Labels
  let labels :=
    if mapGet labels "service" = "" then mapSet labels "service" "warehouse-service"
    else labels
  let labels :=
    if mapGet labels "job" = "" then mapSet labels "job" "go-app" else labels
  { lokiURL := config.URL ++ "/loki/api/v1/push"
    labels := labels
    level := config.Level
    fallbackAttrs := [] }

def LokiHandler.Enabled (h : LokiHandler) (level : Level) : Bool :=
  h.level ≤ level

/-- `LokiPayload` / `LokiStream` structs and their `json.Marshal`
image: struct fields in declaration order, the `map[string]string`
stream with sorted keys. -/
structure LokiStream where
  Stream : List (String × String)
  Values : List (List String)

structure LokiPayload where
  Streams : List LokiStream

def marshalLokiStream (s : LokiStream) : Json :=
  .obj [("stream", .obj ((sortByKey s.Stream).map fun kv => (kv.1, .str kv.2))),
        ("values", .arr (s.Values.map fun v => .arr (v.map Json.str)))]

def marshalLokiPayload (p : LokiPayload) : Json :=
  .obj [("streams", .arr (p.Streams.map marshalLokiStream))]

/-- `LokiHandler.sendToLoki` (the body of the spawned goroutine): the
trace of HTTP sends it attempts.  Marshalling the closed scalar value
kinds cannot fail; a `http.NewRequest` failure returns silently; a
`client.Do` failure is swallowed (`// Silently fail`), with no retry. -/
def LokiHandler.sendToLoki (h : LokiHandler) (env : EmitEnv) (r : Record) :
    List Effect :=
  let logJSON := renderFlatObj (logEntryMap r.time.rfc3339Nano r)
  let payload : LokiPayload :=
    { Streams := [{ Stream := h.labels
                    Values := [[toString r.time.unixNano, logJSON]] }] }
  if env.newRequestFails then []
  else [.post { url := h.lokiURL
                headers := [("Content-Type", "application/json")]
                body := marshalLokiPayload payload }]

/-- `LokiHandler.Handle`: fallback first (its error is returned), then
the asynchronous Loki send is spawned; `Handle` returns `nil`. -/
def LokiHandler.Handle (h : LokiHandler) (env : EmitEnv) (r : Record) :
    List Effect × Option String :=
  match env.fallbackErr with
  | some e => ([.baselineHandle h.fallbackAttrs r], some e)
  | none => (.baselineHandle h.fallbackAttrs r :: h.sendToLoki env r, none)

/-- `LokiHandler.WithAttrs`: copy the label map, add string-kinded
attributes as labels, and hand all attributes to the fallback. -/
def LokiHandler.WithAttrs (h : LokiHandler)
    (attrs : List (String × SlogValue)) : LokiHandler :=
  let newLabels := attrs.foldl
    (fun m kv => if kv.2.isString then mapSet m kv.1 kv.2.stringVal else m)
    h.labels
  { h with labels := newLabels, fallbackAttrs := h.fallbackAttrs ++ attrs }

/-! ### OTLP handler (telemetry-push) -/

structure OTLPConfig where
  Endpoint : String
  ServiceName : String
  Level : Level
  Headers : List (String × String)

structure OTLPHandler where
  otlpURL : String
  serviceName : String
  level : Level
  fallbackAttrs : List (String × SlogValue)

/-- `NewOTLPHandler`: note that `config.Headers` is not stored — the
handler struct has no headers field. -/
def NewOTLPHandler (config : OTLPConfig) : OTLPHandler :=
  { otlpURL := config.Endpoint ++ "/v1/logs"
    serviceName := config.ServiceName
    level := config.Level
    fallbackAttrs := [] }

def OTLPHandler.Enabled (h : OTLPHandler) (level : Level) : Bool :=
  h.level ≤ level

/-- `OTLPHandler.slogLevelToOTLP`. -/
def slogLevelToOTLP (level : Level) : Int :=
  if level = LevelDebug then 5
  else if level = LevelInfo then 9
  else if level = LevelWarn then 13
  else if level = LevelError then 17
  else 9

/-- The OTLP payload structs (`OTLPLogsPayload` …), marshalled with
struct fields in declaration order.  `Attribute.Value` is an
`interface{}` holding `map[string]interface{}{"stringValue": s}`. -/
structure Attribute where
  Key : String
  Value : Json

structure LogRecord where
  TimeUnixNano : String
  SeverityNumber : Int
  SeverityText : String
  BodyStringValue : String
  Attributes : List Attribute

structure ScopeLogs where
  ScopeName : String
  ScopeVersion : String
  LogRecords : List LogRecord

structure ResourceLogs where
  ResourceAttributes : List Attribute
  ScopeLogs : List ScopeLogs

structure OTLPLogsPayload where
  ResourceLogs : List ResourceLogs

def marshalAttribute (a : Attribute) : Json :=
  .obj [("key", .str a.Key), ("value", a.Value)]

def marshalLogRecord (lr : LogRecord) : Json :=
  .obj [("timeUnixNano", .str lr.TimeUnixNano),
        ("severityNumber", .num lr.SeverityNumber),
        ("severityText", .str lr.SeverityText),
        ("body", .obj [("stringValue", .str lr.BodyStringValue)]),
        ("attributes", .arr (lr.Attributes.map marshalAttribute))]

def marshalScopeLogs (sl : ScopeLogs) : Json :=
  .obj [("scope", .obj [("name", .str sl.ScopeName),
                        ("version", .str sl.ScopeVersion)]),
        ("logRecords", .arr (sl.LogRecords.map marshalLogRecord))]

def marshalResourceLogs (rl : ResourceLogs) : Json :=
  .obj [("resource", .obj [("attributes",
            .arr (rl.ResourceAttributes.map marshalAttribute))]),
        ("scopeLogs", .arr (rl.ScopeLogs.map marshalScopeLogs))]

def marshalOTLPPayload (p : OTLPLogsPayload) : Json :=
  .obj [("resourceLogs", .arr (p.ResourceLogs.map marshalResourceLogs))]

/-- `OTLPHandler.sendToOTLP` (the body of the spawned goroutine):
collects the record attributes, builds the single-resource payload, and
attempts exactly one POST; every failure returns silently. -/
def OTLPHandler.sendToOTLP (h : OTLPHandler) (env : EmitEnv) (r : Record) :
    List Effect :=
  let attributes : List Attribute :=
    r.attrs.map fun kv =>
      { Key := kv.1, Value := .obj [("stringValue", .str kv.2.goString)] }
  let payload : OTLPLogsPayload :=
    { ResourceLogs :=
        [{ ResourceAttributes :=
             [{ Key := "service.name"
                Value := .obj [("stringValue", .str h.serviceName)] }]
           ScopeLogs :=
             [{ ScopeName := "go-slog"
                ScopeVersion := "1.0.0"
                LogRecords :=
                  [{ TimeUnixNano := toString r.time.unixNano
                     SeverityNumber := slogLevelToOTLP r.level
                     SeverityText := levelString r.level
                     BodyStringValue := r.message
                     Attributes := attributes }] }] }] }
  if env.newRequestFails then []
  else [.post { url := h.otlpURL
                headers := [("Content-Type", "application/json")]
                body := marshalOTLPPayload payload }]

/-- `OTLPHandler.Handle`: fallback first (its error is returned), then
the asynchronous OTLP send is spawned; `Handle` returns `nil`. -/
def OTLPHandler.Handle (h : OTLPHandler) (env : EmitEnv) (r : Record) :
    List Effect × Option String :=
  match env.fallbackErr with
  | some e => ([.baselineHandle h.fallbackAttrs r], some e)
  | none => (.baselineHandle h.fallbackAttrs r :: h.sendToOTLP env r, none)

/-- `OTLPHandler.WithAttrs`: only the fallback accumulates them. -/
def OTLPHandler.WithAttrs (h : OTLPHandler)
    (attrs : List (String × SlogValue)) : OTLPHandler :=
  { h with fallbackAttrs := h.fallbackAttrs ++ attrs }

/-! ### Setup functions and the orchestrator (`main.go` `setupLogging`)

Each `Setup*` call's external outcomes are supplied by a `SetupEnv`.
`otlpReachable`/`lokiReachable` model whether the push endpoints are
reachable at construction time; errors are `Option String`
(`none` = `nil`). -/

structure SetupEnv where
  otlpReachable : Bool
  lokiReachable : Bool
  /-- Error from `syslog.New` / `syslog.Dial`. -/
  syslogDialErr : Option String
  /-- Error from `os.MkdirAll`. -/
  mkdirErr : Option String
  /-- Error from `os.OpenFile`. -/
  openFileErr : Option String

/-- The `OTLPConfig` literal built inside `SetupOTLPLogging`: no
`Headers` field is set (Go zero value `nil`). -/
def setupOTLPConfig (endpoint serviceName : String) : OTLPConfig :=
  { Endpoint := endpoint
    ServiceName := serviceName
    Level := LevelInfo
    Headers := [] }

/-- `SetupOTLPLogging`: builds the handler and installs it; it performs
no network call and unconditionally returns `nil` — the environment
(in particular reachability) is never consulted. -/
def SetupOTLPLogging (_env : SetupEnv) (endpoint serviceName : String) :
    OTLPHandler × Option String :=
  (NewOTLPHandler (setupOTLPConfig endpoint serviceName), none)

/-- `SetupDirectLokiLogging`: builds the handler with the literal label
set and installs it; unconditionally returns `nil`. -/
def SetupDirectLokiLogging (_env : SetupEnv) (lokiURL serviceName : String) :
    LokiHandler × Option String :=
  (NewLokiHandler
    { URL := lokiURL
      Labels := [("service", serviceName), ("job", "go-direct"),
                 ("source", "application")]
      Level := LevelInfo }, none)

structure SyslogConfig where
  Network : String
  Address : String
  /-- `syslog.Priority` is an int; `LOG_INFO | LOG_LOCAL0 = 134`. -/
  Priority : Int
  Tag : String
  Level : Level

/-- `NewSyslogHandler`: dialing the syslog transport can fail. -/
def NewSyslogHandler (env : SetupEnv) (config : SyslogConfig) :
    Except String SyslogHandler :=
  match env.syslogDialErr with
  | some e => .error ("failed to create syslog writer: " ++ e)
  | none => .ok { level := config.Level, fallbackAttrs := [] }

/-- `SetupSyslogLogging`. -/
def SetupSyslogLogging (env : SetupEnv) (network address tag : String) :
    Option SyslogHandler × Option String :=
  match NewSyslogHandler env
      { Network := network, Address := address, Priority := 134,
        Tag := tag, Level := LevelInfo } with
  | .error e => (none, some e)
  | .ok h => (some h, none)

/-- `LogConfig` (`observability/otel.go`): rotation policy parameters. -/
structure LogConfig where
  FilePath : String
  MaxSizeMB : Int
  MaxBackups : Int
  MaxAgeDays : Int
  Compress : Bool

/-- `filepath.Dir` restricted to slash-separated paths without Go's
path cleaning (only used as the `MkdirAll` argument). -/
def filepathDir (p : String) : String :=
  let parts := p.splitOn "/"
  if parts.length ≤ 1 then "." else String.intercalate "/" parts.dropLast

/-- The sink installed by `SetupAdvancedFileLogger`: an
`io.MultiWriter(os.Stdout, logFile)` where `logFile` was opened once
with `O_CREATE|O_WRONLY|O_APPEND`. -/
structure FileLogger where
  path : String
  deriving DecidableEq, Repr

/-- File-system operations observable during setup and writing. -/
inductive FileOp where
  | mkdirAll (dir : String)
  | openAppend (path : String)
  | writeStdout (line : String)
  | appendFile (path : String) (line : String)
  | closeFile (path : String)
  | renameFile (src dst : String)
  | compressFile (path : String)
  deriving DecidableEq, Repr

/-- Operations a size/age-triggered rotation would consist of: closing
the current file, renaming or compressing it, opening a fresh one. -/
def FileOp.isRotationOp : FileOp → Bool
  | .closeFile _ => true
  | .renameFile _ _ => true
  | .compressFile _ => true
  | .openAppend _ => true
  | _ => false

/-- `SetupAdvancedFileLogger`: creates the directory, opens the file in
append mode, installs the multi-writer JSON handler.  No part of it
consults `MaxSizeMB`, `MaxBackups`, `MaxAgeDays` or `Compress`. -/
def SetupAdvancedFileLogger (env : SetupEnv) (config : LogConfig) :
    List FileOp × Except String FileLogger :=
  let logDir := filepathDir config.FilePath
  match env.mkdirErr with
  | some e => ([.mkdirAll logDir], .error e)
  | none =>
      match env.openFileErr with
      | some e => ([.mkdirAll logDir, .openAppend config.FilePath], .error e)
      | none => ([.mkdirAll logDir, .openAppend config.FilePath],
                 .ok { path := config.FilePath })

/-- One line written through the installed multi-writer: stdout, then
an append to the (never-rotated) file. -/
def FileLogger.writeLine (fl : FileLogger) (line : String) : List FileOp :=
  [.writeStdout line, .appendFile fl.path line]

/-- The operation trace of a whole sequence of writes. -/
def FileLogger.writeAll (fl : FileLogger) (lines : List String) : List FileOp :=
  lines.foldr (fun l acc => fl.writeLine l ++ acc) []

/-- Process configuration fields `setupLogging` consults. -/
structure Config where
  OTELExporterOTLPEndpoint : String
  LokiURL : String
  SyslogAddress : String
  SyslogNetwork : String
  LogFilePath : String
  ServiceName : String

/-- The backend whose handler `slog.SetDefault` ends up installing
(`stdout` = no handler installed, the default stdout JSON path). -/
inductive Backend where
  | otlp | loki | syslog | file | stdout
  deriving DecidableEq, Repr

/-- `setupLogging`, option 4–5: file logging, else default stdout. -/
def setupLoggingStep4 (env : SetupEnv) (cfg : Config) :
    Backend × Option String :=
  if cfg.LogFilePath ≠ "" then
    match (SetupAdvancedFileLogger env
        { FilePath := cfg.LogFilePath, MaxSizeMB := 100, MaxBackups := 5,
          MaxAgeDays := 30, Compress := true }).2 with
    | .ok _ => (.file, none)
    | .error _ => (.stdout, none)
  else (.stdout, none)

/-- `setupLogging`, option 3: syslog, else fall through. -/
def setupLoggingStep3 (env : SetupEnv) (cfg : Config) :
    Backend × Option String :=
  if cfg.SyslogAddress ≠ "" then
    let network := if cfg.SyslogNetwork = "" then "udp" else cfg.SyslogNetwork
    match (SetupSyslogLogging env network cfg.SyslogAddress cfg.ServiceName).2 with
    | none => (.syslog, none)
    | some _ => setupLoggingStep4 env cfg
  else setupLoggingStep4 env cfg

/-- `setupLogging`, option 2: direct Loki, else fall through. -/
def setupLoggingStep2 (env : SetupEnv) (cfg : Config) :
    Backend × Option String :=
  if cfg.LokiURL ≠ "" then
    match (SetupDirectLokiLogging env cfg.LokiURL cfg.ServiceName).2 with
    | none => (.loki, none)
    | some _ => setupLoggingStep3 env cfg
  else setupLoggingStep3 env cfg

/-- `setupLogging` (`main.go`): priority order
OTLP > Loki > Syslog > File > Stdout; returns the installed backend and
the function's `error` result. -/
def setupLogging (env : SetupEnv) (cfg : Config) : Backend × Option String :=
  if cfg.OTELExporterOTLPEndpoint ≠ "" then
    match (SetupOTLPLogging env ("http://" ++ cfg.OTELExporterOTLPEndpoint)
        cfg.ServiceName).2 with
    | none => (.otlp, none)
    | some _ => setupLoggingStep2 env cfg
  else setupLoggingStep2 env cfg

/-- Spec-side definition, following the spec's words for the setup
orchestrator: walk candidates `(backend, configuration-present,
construction-succeeds)` in the fixed priority order and install the
first present candidate whose construction succeeds; console/stdout is
the terminal fallback. -/
def firstSuccess : List (Backend × Bool × Bool) → Backend
  | [] => .stdout
  | (b, present, ok) :: rest => if present && ok then b else firstSuccess rest

/-- The candidate list of the spec's priority chain, with presence
taken from the configuration and construction success from the code's
construction outcomes under `env`. -/
def specCandidates (env : SetupEnv) (cfg : Config) :
    List (Backend × Bool × Bool) :=
  [(.otlp, cfg.OTELExporterOTLPEndpoint ≠ "", true),
   (.loki, cfg.LokiURL ≠ "", true),
   (.syslog, cfg.SyslogAddress ≠ "", env.syslogDialErr = none),
   (.file, cfg.LogFilePath ≠ "",
      env.mkdirErr = none && env.openFileErr = none)]

/-! ### Spec-side helpers for the label-promotion statement -/

def orElseOpt (a b : Option String) : Option String :=
  match a with
  | some v => some v
  | none => b

/-- The value of the last string-kinded attribute named `k` in `attrs`,
if any — the value `WithAttrs` promotion leaves in the label map. -/
def lastStringAttr (attrs : List (String × SlogValue)) (k : String) :
    Option String :=
  match attrs with
  | [] => none
  | kv :: rest =>
      match lastStringAttr rest k with
      | some v => some v
      | none =>
          if kv.2.isString = true ∧ kv.1 = k then some kv.2.stringVal else none

/-! ### Concrete inputs used by witnesses and counterexamples -/

def wTime : GoTime :=
  { unixNano := 1700000000000000000
    rfc3339Nano := "2023-11-14T22:13:20Z"
    isoMillis := "2023-11-14T22:13:20.000Z" }

def wRecord : Record :=
  { time := wTime, level := LevelInfo, message := "ready", attrs := [] }

def wRecordWithAttr : Record :=
  { time := wTime, level := LevelWarn, message := "slow query"
    attrs := [("elapsed_ms", .int 250)] }

/-- An emit-time environment in which the remote target is unreachable
(`client.Do` fails) and the syslog transport send fails. -/
def wEnvUnreachable : EmitEnv :=
  { fallbackErr := none, syslogSendErr := some "connection refused"
    newRequestFails := false, clientDoFails := true }

/-- An emit-time environment in which everything succeeds. -/
def wEnvOk : EmitEnv :=
  { fallbackErr := none, syslogSendErr := none
    newRequestFails := false, clientDoFails := false }

def wSyslogHandler : SyslogHandler := { level := LevelInfo, fallbackAttrs := [] }

def wOTLPConfig : OTLPConfig := setupOTLPConfig "http://otel:4318" "warehouse-service"

def wOTLPHandler : OTLPHandler := NewOTLPHandler wOTLPConfig

def wLokiConfig : LokiConfig :=
  { URL := "http://loki:3100", Labels := [], Level := LevelInfo }

def wLokiHandler : LokiHandler := NewLokiHandler wLokiConfig

/-- The Loki handler after `WithAttrs` with one non-string attribute. -/
def c8Handler : LokiHandler := wLokiHandler.WithAttrs [("count", .int 5)]

/-- A setup environment where both push endpoints are unreachable and
the syslog dial fails. -/
def envUnreachable : SetupEnv :=
  { otlpReachable := false, lokiReachable := false
    syslogDialErr := some "connection refused"
    mkdirErr := none, openFileErr := none }

/-- A setup environment where every construction succeeds. -/
def envAllOk : SetupEnv :=
  { otlpReachable := true, lokiReachable := true, syslogDialErr := none
    mkdirErr := none, openFileErr := none }

def cfgOTLPConfigured : Config :=
  { OTELExporterOTLPEndpoint := "otel-collector:4318"
    LokiURL := "", SyslogAddress := "", SyslogNetwork := ""
    LogFilePath := "/logs/warehouse.json"
    ServiceName := "warehouse-service" }

def c9Config : LogConfig :=
  { FilePath := "/logs/warehouse.json", MaxSizeMB := 1, MaxBackups := 5
    MaxAgeDays := 30, Compress := true }

/-- A single 2 MiB line: its size alone exceeds `c9Config`'s 1 MB
rotation threshold. -/
def bigLine : String := String.mk (List.replicate 2097152 'a')

/-! ## Theorems -/

/-! ### Association-list lemmas -/

theorem mapLookup_mapSet {α : Type} (m : List (String × α)) (k k' : String)
    (v : α) :
    mapLookup (mapSet m k v) k' = if k = k' then some v else mapLookup m k' := by
  induction m with
  | nil => simp [mapSet, mapLookup]
  | cons q rest ih =>
      obtain ⟨qk, qv⟩ := q
      by_cases hq : qk = k
      · subst hq
        by_cases hk' : qk = k'
        · subst hk'
          simp [mapSet, mapLookup]
        · simp [mapSet, mapLookup, hk']
      · by_cases hk' : qk = k'
        · subst hk'
          have hkk' : k ≠ qk := fun h => hq h.symm
          simp [mapSet, mapLookup, hq, hkk']
        · simp [mapSet, mapLookup, hq, hk', ih]

/-- Lookup after the `WithAttrs` promotion fold: the last string-kinded
attribute named `k` wins, else the original label survives. -/
theorem mapLookup_promoteFold (attrs : List (String × SlogValue))
    (labels : List (String × String)) (k : String) :
    mapLookup (attrs.foldl
        (fun m kv => if kv.2.isString then mapSet m kv.1 kv.2.stringVal else m)
        labels) k =
      orElseOpt (lastStringAttr attrs k) (mapLookup labels k) := by
  induction attrs generalizing labels with
  | nil => simp [lastStringAttr, orElseOpt]
  | cons kv rest ih =>
      simp only [List.foldl_cons]
      rw [ih]
      cases hrest : lastStringAttr rest k with
      | some v => simp [lastStringAttr, hrest, orElseOpt]
      | none =>
          simp only [lastStringAttr, hrest, orElseOpt]
          by_cases hstr : kv.2.isString = true
          · simp only [hstr, if_true]
            rw [mapLookup_mapSet]
            by_cases hk : kv.1 = k
            · simp [hstr, hk]
            · simp [hstr, hk]
          · simp only [hstr]
            simp [Bool.not_eq_true] at hstr
            simp [hstr]

/-- Keys that are not among a record's own attributes are untouched by
the attribute fold of the log-line map. -/
theorem mapLookup_logEntryFold (attrs : List (String × SlogValue))
    (m : List (String × Json)) (k : String) (hk : ∀ v, (k, v) ∉ attrs) :
    mapLookup (attrs.foldl (fun m kv => mapSet m kv.1 kv.2.toJson) m) k =
      mapLookup m k := by
  induction attrs generalizing m with
  | nil => rfl
  | cons kv rest ih =>
      simp only [List.foldl_cons]
      rw [ih _ (fun v hv => hk v (List.mem_cons_of_mem _ hv))]
      rw [mapLookup_mapSet]
      have hne : kv.1 ≠ k := by
        intro h
        exact hk kv.2 (by
          have : kv = (k, kv.2) := by
            cases kv
            simp_all
          rw [this]
          exact List.mem_cons_self _ _)
      simp [hne]

/-- C4: Both severity mappers are total: the syslog switch sends
debug→DEBUG, info→INFO, warn→WARNING, error→ERR and any unrecognized
level to INFO; the OTLP mapper sends debug→5, info→9, warn→13,
error→17 and any unrecognized level to 9. -/
theorem severity_mappers_total :
    (syslogSeverityFor LevelDebug = .debug ∧
     syslogSeverityFor LevelInfo = .info ∧
     syslogSeverityFor LevelWarn = .warning ∧
     syslogSeverityFor LevelError = .err) ∧
    (slogLevelToOTLP LevelDebug = 5 ∧ slogLevelToOTLP LevelInfo = 9 ∧
     slogLevelToOTLP LevelWarn = 13 ∧ slogLevelToOTLP LevelError = 17) ∧
    (∀ l : Level, l ≠ LevelDebug → l ≠ LevelInfo → l ≠ LevelWarn →
      l ≠ LevelError → syslogSeverityFor l = .info ∧ slogLevelToOTLP l = 9) := by
  refine ⟨⟨by decide, by decide, by decide, by decide⟩,
          ⟨by decide, by decide, by decide, by decide⟩, ?_⟩
  intro l h1 h2 h3 h4
  constructor
  · simp [syslogSeverityFor, h1, h2, h3, h4]
  · simp [slogLevelToOTLP, h1, h2, h3, h4]

/-- Witness for C4 at the unrecognized level 2 (between info and warn). -/
theorem severity_mappers_total_witness :
    syslogSeverityFor 2 = .info ∧ slogLevelToOTLP 2 = 9 :=
  severity_mappers_total.2.2 2 (by decide) (by decide) (by decide) (by decide)

/-- C1: for each handler variant, for every record passing the level
filter, `Handle`'s effect trace begins with the baseline (stdout JSON)
write of the record, and everything after it is a remote send — so the
baseline receives the record first, before any remote dispatch, for
every environment, including ones where the remote target is
unreachable. -/
theorem baseline_receives_record_first
    (env : EmitEnv) (r : Record)
    (hs : SyslogHandler) (ho : OTLPHandler) (hl : LokiHandler)
    (es : hs.Enabled r.level = true)
    (eo : ho.Enabled r.level = true)
    (el : hl.Enabled r.level = true) :
    ((hs.Handle env r).1.head? = some (.baselineHandle hs.fallbackAttrs r) ∧
      ∀ e ∈ (hs.Handle env r).1.tail, e.isRemote = true) ∧
    ((ho.Handle env r).1.head? = some (.baselineHandle ho.fallbackAttrs r) ∧
      ∀ e ∈ (ho.Handle env r).1.tail, e.isRemote = true) ∧
    ((hl.Handle env r).1.head? = some (.baselineHandle hl.fallbackAttrs r) ∧
      ∀ e ∈ (hl.Handle env r).1.tail, e.isRemote = true) := by
  refine ⟨?_, ?_, ?_⟩ <;>
    cases hfb : env.fallbackErr <;>
      cases hnr : env.newRequestFails <;>
        simp [SyslogHandler.Handle, OTLPHandler.Handle, LokiHandler.Handle,
          OTLPHandler.sendToOTLP, LokiHandler.sendToLoki, hfb, hnr,
          Effect.isRemote]

/-- Witness for C1: an info record through all three handlers at their
info level filter, in the environment where the remote targets are
unreachable. -/
theorem baseline_receives_record_first_witness :
    ((wSyslogHandler.Handle wEnvUnreachable wRecord).1.head? =
        some (.baselineHandle wSyslogHandler.fallbackAttrs wRecord) ∧
      ∀ e ∈ (wSyslogHandler.Handle wEnvUnreachable wRecord).1.tail,
        e.isRemote = true) ∧
    ((wOTLPHandler.Handle wEnvUnreachable wRecord).1.head? =
        some (.baselineHandle wOTLPHandler.fallbackAttrs wRecord) ∧
      ∀ e ∈ (wOTLPHandler.Handle wEnvUnreachable wRecord).1.tail,
        e.isRemote = true) ∧
    ((wLokiHandler.Handle wEnvUnreachable wRecord).1.head? =
        some (.baselineHandle wLokiHandler.fallbackAttrs wRecord) ∧
      ∀ e ∈ (wLokiHandler.Handle wEnvUnreachable wRecord).1.tail,
        e.isRemote = true) :=
  baseline_receives_record_first wEnvUnreachable wRecord
    wSyslogHandler wOTLPHandler wLokiHandler
    (by decide) (by decide) (by decide)

/-- C7: for the push handlers, whenever the synchronous baseline write
succeeds, `Handle` returns success for every environment — the
asynchronous leg's outcome (request-construction or network failure)
is never surfaced — and the spawned send attempts at most one HTTP
request, so a failed dispatch is never retried. -/
theorem remote_failures_never_surfaced
    (ho : OTLPHandler) (hl : LokiHandler) (env : EmitEnv) (r : Record)
    (hb : env.fallbackErr = none) :
    (ho.Handle env r).2 = none ∧ (hl.Handle env r).2 = none ∧
    (ho.sendToOTLP env r).length ≤ 1 ∧ (hl.sendToLoki env r).length ≤ 1 := by
  cases hnr : env.newRequestFails <;>
    simp [OTLPHandler.Handle, LokiHandler.Handle, OTLPHandler.sendToOTLP,
      LokiHandler.sendToLoki, hb, hnr]

/-- Witness for C7: both push handlers in the environment where the
network send fails. -/
theorem remote_failures_never_surfaced_witness :
    (wOTLPHandler.Handle wEnvUnreachable wRecord).2 = none ∧
    (wLokiHandler.Handle wEnvUnreachable wRecord).2 = none ∧
    (wOTLPHandler.sendToOTLP wEnvUnreachable wRecord).length ≤ 1 ∧
    (wLokiHandler.sendToLoki wEnvUnreachable wRecord).length ≤ 1 :=
  remote_failures_never_surfaced wOTLPHandler wLokiHandler wEnvUnreachable
    wRecord rfl

/-- C2: `setupLogging` walks the candidates in the fixed priority order
OTLP (telemetry-push) > Loki (metrics-push) > syslog > file > stdout,
installs the first present candidate whose construction succeeds, falls
back to stdout when none is present or every attempted construction
fails, and always returns `nil`. -/
theorem setupLogging_priority_chain (env : SetupEnv) (cfg : Config) :
    setupLogging env cfg = (firstSuccess (specCandidates env cfg), none) := by
  by_cases h1 : cfg.OTELExporterOTLPEndpoint = "" <;>
    by_cases h2 : cfg.LokiURL = "" <;>
      by_cases h3 : cfg.SyslogAddress = "" <;>
        by_cases h4 : cfg.LogFilePath = "" <;>
          cases hs : env.syslogDialErr <;>
            cases hm : env.mkdirErr <;>
              cases hof : env.openFileErr <;>
                simp [setupLogging, setupLoggingStep2, setupLoggingStep3,
                  setupLoggingStep4, specCandidates, firstSuccess,
                  SetupOTLPLogging, SetupDirectLokiLogging,
                  SetupSyslogLogging, SetupAdvancedFileLogger,
                  NewSyslogHandler, h1, h2, h3, h4, hs, hm, hof]

/-- C3 counterexample: with the telemetry endpoint configured and
unreachable (and syslog dial failing, a file path present),
`SetupOTLPLogging` still returns `nil` (no `SetupError`) and the
orchestrator installs the OTLP backend rather than falling through to
file or console. -/
theorem otlp_unreachable_no_setup_error_cex :
    (SetupOTLPLogging envUnreachable "http://otel-collector:4318"
        "warehouse-service").2 = none ∧
    setupLogging envUnreachable cfgOTLPConfigured = (Backend.otlp, none) ∧
    envUnreachable.otlpReachable = false ∧
    cfgOTLPConfigured.LogFilePath ≠ "" := by
  refine ⟨rfl, ?_, rfl, by decide⟩
  simp [setupLogging, cfgOTLPConfigured, SetupOTLPLogging]

/-- C3 amended: whenever a telemetry-push endpoint is configured, the
telemetry backend's construction returns no error — it performs no
reachability check — and the orchestrator installs the telemetry
backend without ever falling through, even when the endpoint is
unreachable. -/
theorem otlp_construction_always_succeeds
    (env : SetupEnv) (cfg : Config)
    (hcfg : cfg.OTELExporterOTLPEndpoint ≠ "")
    (hunreach : env.otlpReachable = false) :
    (SetupOTLPLogging env ("http://" ++ cfg.OTELExporterOTLPEndpoint)
        cfg.ServiceName).2 = none ∧
    setupLogging env cfg = (Backend.otlp, none) := by
  refine ⟨rfl, ?_⟩
  simp [setupLogging, SetupOTLPLogging, hcfg]

/-- Witness for the amended C3. -/
theorem otlp_construction_always_succeeds_witness :
    (SetupOTLPLogging envUnreachable
        ("http://" ++ cfgOTLPConfigured.OTELExporterOTLPEndpoint)
        cfgOTLPConfigured.ServiceName).2 = none ∧
    setupLogging envUnreachable cfgOTLPConfigured = (Backend.otlp, none) :=
  otlp_construction_always_succeeds envUnreachable cfgOTLPConfigured
    (by decide) rfl

/-- C5: for every record, `sendToLoki` attempts exactly one push — to
`<endpoint>/loki/api/v1/push` — whose JSON body is
`{"streams":[{"stream":{labels},"values":[["<unix-nanos>","<line>"]]}]}`:
one stream carrying all of the handler's labels (keys sorted as Go
marshals a map) and exactly one value entry keyed by the record's
nanosecond timestamp, with no batching across records. -/
theorem loki_push_payload_shape
    (cfg : LokiConfig) (env : EmitEnv) (r : Record)
    (hreq : env.newRequestFails = false) :
    (NewLokiHandler cfg).sendToLoki env r =
      [.post
        { url := cfg.URL ++ "/loki/api/v1/push"
          headers := [("Content-Type", "application/json")]
          body := Json.obj [("streams", Json.arr [Json.obj
            [("stream", Json.obj
               ((sortByKey (NewLokiHandler cfg).labels).map
                 fun kv => (kv.1, Json.str kv.2))),
             ("values", Json.arr [Json.arr
               [Json.str (toString r.time.unixNano),
                Json.str (renderFlatObj
                  (logEntryMap r.time.rfc3339Nano r))]])]])] }] := by
  simp [LokiHandler.sendToLoki, NewLokiHandler, hreq, marshalLokiPayload,
    marshalLokiStream]

/-- Witness for C5: the default-label handler pushing a concrete info
record, with the fully evaluated request. -/
theorem loki_push_payload_shape_witness :
    wLokiHandler.sendToLoki wEnvOk wRecord =
      [.post
        { url := "http://loki:3100/loki/api/v1/push"
          headers := [("Content-Type", "application/json")]
          body := Json.obj [("streams", Json.arr [Json.obj
            [("stream", Json.obj
               [("job", .str "go-app"), ("service", .str "warehouse-service")]),
             ("values", Json.arr [Json.arr
               [Json.str "1700000000000000000",
                Json.str
                  "\x7b\"level\":\"INFO\",\"msg\":\"ready\",\"timestamp\":\"2023-11-14T22:13:20Z\"\x7d"]])]])] }] := by
  have h := loki_push_payload_shape wLokiConfig wEnvOk wRecord rfl
  rw [show wLokiHandler = NewLokiHandler wLokiConfig from rfl, h]
  rfl

/-- C6: for every record, `sendToOTLP` attempts exactly one POST to
`<endpoint>/v1/logs` whose body has one `resourceLogs` entry with the
single `service.name` resource attribute, one `scopeLogs` entry, and
one `logRecords` entry carrying the nanosecond timestamp as a string,
the mapped severity number, the severity name, the message body, and
each record attribute stringified under `stringValue`. -/
theorem otlp_push_payload_shape
    (cfg : OTLPConfig) (env : EmitEnv) (r : Record)
    (hreq : env.newRequestFails = false) :
    (NewOTLPHandler cfg).sendToOTLP env r =
      [.post
        { url := cfg.Endpoint ++ "/v1/logs"
          headers := [("Content-Type", "application/json")]
          body := Json.obj [("resourceLogs", Json.arr [Json.obj
            [("resource", Json.obj [("attributes", Json.arr [Json.obj
               [("key", .str "service.name"),
                ("value", Json.obj [("stringValue", .str cfg.ServiceName)])]])]),
             ("scopeLogs", Json.arr [Json.obj
               [("scope", Json.obj
                  [("name", .str "go-slog"), ("version", .str "1.0.0")]),
                ("logRecords", Json.arr [Json.obj
                  [("timeUnixNano", .str (toString r.time.unixNano)),
                   ("severityNumber", .num (slogLevelToOTLP r.level)),
                   ("severityText", .str (levelString r.level)),
                   ("body", Json.obj [("stringValue", .str r.message)]),
                   ("attributes", Json.arr (r.attrs.map fun kv =>
                      Json.obj [("key", .str kv.1),
                        ("value", Json.obj
                          [("stringValue", .str kv.2.goString)])]))]])]])]])] }] := by
  simp [OTLPHandler.sendToOTLP, NewOTLPHandler, hreq, marshalOTLPPayload,
    marshalResourceLogs, marshalScopeLogs, marshalLogRecord, marshalAttribute]

/-- Witness for C6: a warn record with one integer attribute through
the setup-path handler, with the fully evaluated request. -/
theorem otlp_push_payload_shape_witness :
    wOTLPHandler.sendToOTLP wEnvOk wRecordWithAttr =
      [.post
        { url := "http://otel:4318/v1/logs"
          headers := [("Content-Type", "application/json")]
          body := Json.obj [("resourceLogs", Json.arr [Json.obj
            [("resource", Json.obj [("attributes", Json.arr [Json.obj
               [("key", .str "service.name"),
                ("value", Json.obj
                  [("stringValue", .str "warehouse-service")])]])]),
             ("scopeLogs", Json.arr [Json.obj
               [("scope", Json.obj
                  [("name", .str "go-slog"), ("version", .str "1.0.0")]),
                ("logRecords", Json.arr [Json.obj
                  [("timeUnixNano", .str "1700000000000000000"),
                   ("severityNumber", .num 13),
                   ("severityText", .str "WARN"),
                   ("body", Json.obj [("stringValue", .str "slow query")]),
                   ("attributes", Json.arr [Json.obj
                     [("key", .str "elapsed_ms"),
                      ("value", Json.obj
                        [("stringValue", .str "250")])]])]])]])]])] }] := by
  have h := otlp_push_payload_shape wOTLPConfig wEnvOk wRecordWithAttr rfl
  rw [show wOTLPHandler = NewOTLPHandler wOTLPConfig from rfl, h]
  rfl

/-- C10: every request `sendToOTLP` attempts carries exactly the one
handler-set header `Content-Type: application/json`; the configured
header map never reaches the handler (`NewOTLPHandler` is independent
of `Headers`), and the setup path builds its config with no headers at
all. -/
theorem otlp_headers_never_attached
    (cfg : OTLPConfig) (hs : List (String × String)) (env : EmitEnv)
    (r : Record) (req : HttpRequest)
    (hmem : Effect.post req ∈ (NewOTLPHandler cfg).sendToOTLP env r) :
    req.headers = [("Content-Type", "application/json")] ∧
    NewOTLPHandler { cfg with Headers := hs } = NewOTLPHandler cfg ∧
    ∀ endpoint serviceName : String,
      (setupOTLPConfig endpoint serviceName).Headers = [] := by
  refine ⟨?_, rfl, fun _ _ => rfl⟩
  cases hnr : env.newRequestFails <;>
    simp [OTLPHandler.sendToOTLP, hnr] at hmem
  · rw [hmem]

/-- Witness for C10 at the concrete request of the OTLP push. -/
theorem otlp_headers_never_attached_witness :
    (HttpRequest.mk "http://otel:4318/v1/logs"
        [("Content-Type", "application/json")]
        (Json.obj [("resourceLogs", Json.arr [Json.obj
          [("resource", Json.obj [("attributes", Json.arr [Json.obj
             [("key", .str "service.name"),
              ("value", Json.obj
                [("stringValue", .str "warehouse-service")])]])]),
           ("scopeLogs", Json.arr [Json.obj
             [("scope", Json.obj
                [("name", .str "go-slog"), ("version", .str "1.0.0")]),
              ("logRecords", Json.arr [Json.obj
                [("timeUnixNano", .str "1700000000000000000"),
                 ("severityNumber", .num 9),
                 ("severityText", .str "INFO"),
                 ("body", Json.obj [("stringValue", .str "ready")]),
                 ("attributes", Json.arr [])]])]])]])])).headers =
      [("Content-Type", "application/json")] ∧
    NewOTLPHandler { wOTLPConfig with Headers := [("Authorization", "Bearer t")] }
      = NewOTLPHandler wOTLPConfig ∧
    ∀ endpoint serviceName : String,
      (setupOTLPConfig endpoint serviceName).Headers = [] := by
  refine otlp_headers_never_attached wOTLPConfig [("Authorization", "Bearer t")]
    wEnvOk wRecord _ ?_
  exact List.Mem.head []

/-- C8 counterexample: add the non-string attribute `("count", 5)` via
`WithAttrs` and push an attribute-free record: `count` is not promoted
to a label (as the claim says), but it is also absent from the pushed
line body — the line carries only the record's own fields — refuting
the claim that non-string added attributes are carried in the line
body of subsequently pushed records. -/
theorem loki_nonstring_attr_absent_from_line_cex :
    SlogValue.isString (.int 5) = false ∧
    mapLookup c8Handler.labels "count" = none ∧
    c8Handler.sendToLoki wEnvOk wRecord =
      [.post
        { url := "http://loki:3100/loki/api/v1/push"
          headers := [("Content-Type", "application/json")]
          body := Json.obj [("streams", Json.arr [Json.obj
            [("stream", Json.obj
               [("job", .str "go-app"), ("service", .str "warehouse-service")]),
             ("values", Json.arr [Json.arr
               [Json.str "1700000000000000000",
                Json.str
                  "\x7b\"level\":\"INFO\",\"msg\":\"ready\",\"timestamp\":\"2023-11-14T22:13:20Z\"\x7d"]])]])] }] ∧
    mapLookup (logEntryMap wRecord.time.rfc3339Nano wRecord) "count" = none :=
  ⟨rfl, rfl, rfl, rfl⟩

/-- C8 amended: `WithAttrs` promotes to the label set exactly the
string-kinded added attributes (last occurrence winning), merged over
the existing labels; all added attributes are forwarded to the embedded
baseline handler; the push depends on the added attributes only through
the promoted labels, and the pushed line body carries only the base
fields and the record's own attributes — never the handler's added
attributes. -/
theorem loki_withattrs_label_promotion
    (h : LokiHandler) (attrs : List (String × SlogValue)) (k : String)
    (env : EmitEnv) (r : Record) :
    mapLookup (h.WithAttrs attrs).labels k =
      orElseOpt (lastStringAttr attrs k) (mapLookup h.labels k) ∧
    (h.WithAttrs attrs).fallbackAttrs = h.fallbackAttrs ++ attrs ∧
    (h.WithAttrs attrs).sendToLoki env r =
      LokiHandler.sendToLoki
        { h with labels := (h.WithAttrs attrs).labels } env r ∧
    (k ≠ "timestamp" → k ≠ "level" → k ≠ "msg" →
      (∀ v, (k, v) ∉ r.attrs) →
      mapLookup (logEntryMap r.time.rfc3339Nano r) k = none) := by
  refine ⟨mapLookup_promoteFold attrs h.labels k, rfl, rfl, ?_⟩
  intro h1 h2 h3 h4
  rw [logEntryMap, mapLookup_logEntryFold _ _ _ h4]
  simp [mapLookup, Ne.symm h1, Ne.symm h2, Ne.symm h3]

/-- Witness for the amended C8 with the non-string attribute
`("count", 5)` over the default handler. -/
theorem loki_withattrs_label_promotion_witness :
    mapLookup (wLokiHandler.WithAttrs [("count", SlogValue.int 5)]).labels
        "count" =
      orElseOpt (lastStringAttr [("count", SlogValue.int 5)] "count")
        (mapLookup wLokiHandler.labels "count") ∧
    (wLokiHandler.WithAttrs [("count", SlogValue.int 5)]).fallbackAttrs =
      wLokiHandler.fallbackAttrs ++ [("count", SlogValue.int 5)] ∧
    (wLokiHandler.WithAttrs [("count", SlogValue.int 5)]).sendToLoki
        wEnvOk wRecord =
      LokiHandler.sendToLoki
        { wLokiHandler with
          labels := (wLokiHandler.WithAttrs
            [("count", SlogValue.int 5)]).labels } wEnvOk wRecord ∧
    mapLookup (logEntryMap wRecord.time.rfc3339Nano wRecord) "count" = none := by
  have h := loki_withattrs_label_promotion wLokiHandler
    [("count", SlogValue.int 5)] "count" wEnvOk wRecord
  exact ⟨h.1, h.2.1, h.2.2.1,
    h.2.2.2 (by decide) (by decide) (by decide)
      (fun v hv => by simp [wRecord] at hv)⟩

/-- C9: with a 1 MB max size configured, a single 2 MiB write exceeds
the limit yet triggers no rotation: setup opens one append-mode file
and the installed writer only ever appends to it; the rotation
parameters do not influence the constructed logger at all. -/
theorem file_rotation_params_ignored :
    (SetupAdvancedFileLogger envAllOk c9Config).2 =
      .ok { path := "/logs/warehouse.json" } ∧
    SetupAdvancedFileLogger envAllOk
        { c9Config with
          MaxSizeMB := 0
          MaxBackups := 0
          MaxAgeDays := 0
          Compress := false } =
      SetupAdvancedFileLogger envAllOk c9Config ∧
    (bigLine.length : Int) > c9Config.MaxSizeMB * 1024 * 1024 ∧
    FileLogger.writeAll { path := "/logs/warehouse.json" } [bigLine] =
      [.writeStdout bigLine, .appendFile "/logs/warehouse.json" bigLine] ∧
    (FileLogger.writeAll { path := "/logs/warehouse.json" }
        [bigLine]).filter (fun op => op.isRotationOp) = [] := by
  refine ⟨rfl, rfl, ?_, rfl, rfl⟩
  have hlen : bigLine.length = 2097152 := List.length_replicate 2097152 'a'
  rw [hlen]
  norm_num [c9Config]

end WarehouseService
